import Mathlib

/-!
Shallow embedding of the syscall layer in `src/userprog/syscall.c` of the
pintos-kaist user-program project: the user-pointer validator
`check_address`, the per-process file-descriptor table operations, the
individual syscall handlers, the filesystem-lock discipline of `read` and
`write`, and the register-frame dispatcher `syscall_handler`.

External collaborators (filesystem, console, scheduler, page table), which
the spec treats as interfaces only, are parameters gathered in `Env`;
per-process state (`struct thread` fields touched here) is `Proc`.  Each
handler returns its outcome, the updated process state, the console output
it printed, and the ordered trace of lock/collaborator events it performed.
-/

namespace PintosSyscall

/-- User virtual addresses as unbounded naturals; the null pointer is 0. -/
abbrev Addr := Nat

/-- Opaque open-file handles (the `struct file *` values the filesystem hands out). -/
abbrev Handle := Nat

/-- The slice of the register snapshot (`struct intr_frame`) that the
dispatcher reads and writes.  Registers hold raw 64-bit values. -/
structure Frame where
  rax : Nat
  rdi : Nat
  rsi : Nat
  rdx : Nat
  r10 : Nat
  r8 : Nat
  r9 : Nat
  rbx : Nat
  rsp : Nat
  rip : Nat
  deriving DecidableEq, Repr

/-- Truncation of a 64-bit register value to a C `int`, as performed by
`int syscall_number = f->R.rax` and by the handlers taking `int` arguments. -/
def toInt32 (x : Nat) : Int :=
  if x % 4294967296 < 2147483648 then ((x % 4294967296 : Nat) : Int)
  else ((x % 4294967296 : Nat) : Int) - 4294967296

/-- Truncation of a 64-bit register value to a C `unsigned`. -/
def toUInt32nat (x : Nat) : Nat := x % 4294967296

/-- Two's-complement image of a C `int` result stored back into the 64-bit
`rax` register. -/
def intToRax (v : Int) : Nat := (v % 18446744073709551616).toNat

/-- Observable events a handler performs, in program order: filesystem-lock
operations, console I/O, and calls into the filesystem collaborator. -/
inductive Event where
  | lockAcquire : Event
  | lockRelease : Event
  | inputGetc : Event
  | putbuf : Nat → Event
  | getFile : Int → Event
  | fileRead : Handle → Nat → Event
  | fileWrite : Handle → Nat → Event
  | fileSeek : Handle → Nat → Event
  | fileClose : Option Handle → Event
  | filesysCreate : Addr → Nat → Event
  | filesysRemove : Addr → Event
  | filesysOpen : Addr → Event
  | freeHandle : Handle → Event
  | pallocPage : Event
  | strlcpyCopy : Event
  | processExec : Event
  deriving DecidableEq, Repr

/-- How a handler relinquishes control: a normal return with a value, a
termination of the calling process through `exit`, a machine shutdown
(`power_off`), or a successful `process_exec` that replaced the image and
never returns. -/
inductive Outcome (α : Type) where
  | ok : α → Outcome α
  | exited : Int → Outcome α
  | halted : Outcome α
  | noreturn : Outcome α
  deriving DecidableEq, Repr

/-- The slice of `struct thread` this layer touches: the process name, the
recorded exit status, the page table, the file-descriptor table with its
allocation cursor, and the saved parent frame used by fork. -/
structure Proc where
  name : String
  exit_status : Int
  pml4 : Addr → Option Addr
  fdt : Nat → Option Handle
  next_fd : Int
  parent_if : Frame

/-- External collaborators and compile-time constants (spec section 6).
`fdt_count_limit` stands for the `FDT_COUNT_LIMIT` constant declared outside
src/; `palloc_ok` is whether `palloc_get_page` succeeds for the one page
`exec` requests; `process_exec_fails` is whether the image-replacing
collaborator reports failure (on success it never returns, per the spec's
process-collaborator contract). -/
structure Env where
  is_user_vaddr : Addr → Bool
  fdt_count_limit : Int
  filesys_create : Addr → Nat → Bool
  filesys_remove : Addr → Bool
  filesys_open : Addr → Option Handle
  file_length : Handle → Int
  file_read : Handle → Addr → Nat → Int
  file_write : Handle → Addr → Nat → Int
  file_tell : Handle → Int
  palloc_ok : Bool
  process_exec_fails : Bool
  process_fork : Addr → Frame → Int
  process_wait : Int → Int
  tell_undef : Int

/-- Result of running one handler: outcome, updated process state, console
output printed, and the event trace in order. -/
structure HRes (α : Type) where
  out : Outcome α
  proc : Proc
  msg : String
  trace : List Event

/-- Embeds `check_address` (syscall.c lines 72-79).  The C function exits
the process inside the guard; here `true` means the pointer passed all
three checks and the function returned, `false` means the guard
`!is_user_vaddr(addr) || addr == NULL || pml4_get_page(t->pml4, addr) == NULL`
fired and the process is terminated through `exit(-1)` (see `hExit`). -/
def check_address (env : Env) (p : Proc) (addr : Addr) : Bool :=
  !(!env.is_user_vaddr addr || addr == 0 || (p.pml4 addr).isNone)

/-- The effect of `exit status` (syscall.c lines 83-88), as invoked either
directly by the exit handler or from a failed `check_address`: record the
status in `exit_status`, print the termination message, terminate the
thread. -/
def hExit {α : Type} (p : Proc) (status : Int) (tr : List Event) : HRes α :=
  { out := Outcome.exited status
    proc := { p with exit_status := status }
    msg := p.name ++ ": exit(" ++ toString status ++ ")\n"
    trace := tr }

/-- Embeds `halt` (lines 80-82): `power_off`, never returns. -/
def halt (p : Proc) : HRes Unit :=
  { out := Outcome.halted, proc := p, msg := "", trace := [] }

/-- Embeds `exit` (lines 83-88). -/
def exit (p : Proc) (status : Int) : HRes Unit :=
  hExit p status []

/-- Embeds `create` (lines 89-92). -/
def create (env : Env) (p : Proc) (file : Addr) (initial_size : Nat) : HRes Bool :=
  if check_address env p file then
    { out := Outcome.ok (env.filesys_create file initial_size), proc := p, msg := ""
      trace := [Event.filesysCreate file initial_size] }
  else hExit p (-1) []

/-- Embeds `remove` (lines 94-97). -/
def remove (env : Env) (p : Proc) (file : Addr) : HRes Bool :=
  if check_address env p file then
    { out := Outcome.ok (env.filesys_remove file), proc := p, msg := ""
      trace := [Event.filesysRemove file] }
  else hExit p (-1) []

/-- First empty slot of the table at index `i` or beyond, with `fuel`
slots still to inspect. -/
def findFreeSlot (fdt : Nat → Option Handle) : Nat → Nat → Option Nat
  | 0, _ => none
  | Nat.succ fuel, i => if fdt i = none then some i else findFreeSlot fdt fuel (i + 1)

/-- Modelled from the spec: `process_add_file`, the descriptor allocator
that `open` calls, is declared and used in src/userprog/syscall.c but its
definition lives outside src/.  Spec 4.2: "allocate(handle) -> fd |
fails(TableFull): scans slots from a cursor (or from index 2) for the first
empty slot, stores the handle, returns its index. Returns a distinguished
failure value when the table has no free slot (capacity is fixed)". -/
def process_add_file (env : Env) (p : Proc) (f : Handle) : Int × Proc :=
  match findFreeSlot p.fdt (env.fdt_count_limit.toNat - 2) 2 with
  | none => (-1, p)
  | some j =>
    ((j : Int),
     { p with fdt := fun k => if k = j then some f else p.fdt k
              next_fd := max p.next_fd ((j : Int) + 1) })

/-- Embeds `open` (lines 99-110); `open` is a Lean keyword, hence the tick. -/
def open' (env : Env) (p : Proc) (file : Addr) : HRes Int :=
  if check_address env p file then
    match env.filesys_open file with
    | none => { out := Outcome.ok (-1), proc := p, msg := "", trace := [Event.filesysOpen file] }
    | some f =>
      let r := process_add_file env p f
      if r.1 = -1 then
        { out := Outcome.ok (-1), proc := r.2, msg := ""
          trace := [Event.filesysOpen file, Event.freeHandle f] }
      else
        { out := Outcome.ok r.1, proc := r.2, msg := "", trace := [Event.filesysOpen file] }
  else hExit p (-1) []

/-- Embeds `process_get_file` (lines 111-119): bounds check first, then the
table slot. -/
def process_get_file (env : Env) (p : Proc) (fd : Int) : Option Handle :=
  if fd < 2 ∨ env.fdt_count_limit ≤ fd then none
  else p.fdt fd.toNat

/-- Embeds `filesize` (lines 121-126). -/
def filesize (env : Env) (p : Proc) (fd : Int) : HRes Int :=
  match process_get_file env p fd with
  | none => { out := Outcome.ok (-1), proc := p, msg := "", trace := [Event.getFile fd] }
  | some f =>
    { out := Outcome.ok (env.file_length f), proc := p, msg := "", trace := [Event.getFile fd] }

/-- Embeds `exec` (lines 128-140): validate the pointer, allocate a kernel
page (exit(-1) if that fails), copy the command line into it with `strlcpy`,
then call `process_exec`; exit(-1) if the collaborator reports -1, and on
success the collaborator never returns. -/
def exec (env : Env) (p : Proc) (cmd_line : Addr) : HRes Int :=
  if check_address env p cmd_line then
    if env.palloc_ok then
      if env.process_exec_fails then
        hExit p (-1) [Event.pallocPage, Event.strlcpyCopy, Event.processExec]
      else
        { out := Outcome.noreturn, proc := p, msg := ""
          trace := [Event.pallocPage, Event.strlcpyCopy, Event.processExec] }
    else hExit p (-1) [Event.pallocPage]
  else hExit p (-1) []

/-- Embeds `read` (lines 142-180).  The source acquires the filesystem lock
immediately after the pointer check, before distinguishing the console case
and before any fd validation, and releases it on every return path. -/
def read (env : Env) (p : Proc) (fd : Int) (buffer : Addr) (size : Nat) : HRes Int :=
  if check_address env p buffer then
    if fd = 0 then
      { out := Outcome.ok (size : Int), proc := p, msg := ""
        trace := Event.lockAcquire :: (List.replicate size Event.inputGetc ++ [Event.lockRelease]) }
    else if fd < 2 then
      { out := Outcome.ok (-1), proc := p, msg := ""
        trace := [Event.lockAcquire, Event.lockRelease] }
    else
      match process_get_file env p fd with
      | none =>
        { out := Outcome.ok (-1), proc := p, msg := ""
          trace := [Event.lockAcquire, Event.getFile fd, Event.lockRelease] }
      | some file =>
        { out := Outcome.ok (env.file_read file buffer size), proc := p, msg := ""
          trace := [Event.lockAcquire, Event.getFile fd, Event.fileRead file size,
                    Event.lockRelease] }
  else hExit p (-1) []

/-- Embeds `write` (lines 182-203).  The console case calls `putbuf` with no
lock at all and stores the `unsigned size` into `int bytes_write`, wrapping
through the 32-bit signed conversion; the file case acquires the lock only
around `file_write`. -/
def write (env : Env) (p : Proc) (fd : Int) (buffer : Addr) (size : Nat) : HRes Int :=
  if check_address env p buffer then
    if fd = 1 then
      { out := Outcome.ok (toInt32 size), proc := p, msg := "", trace := [Event.putbuf size] }
    else if fd < 2 then
      { out := Outcome.ok (-1), proc := p, msg := "", trace := [] }
    else
      match process_get_file env p fd with
      | none => { out := Outcome.ok (-1), proc := p, msg := "", trace := [Event.getFile fd] }
      | some file =>
        { out := Outcome.ok (env.file_write file buffer size), proc := p, msg := ""
          trace := [Event.getFile fd, Event.lockAcquire, Event.fileWrite file size,
                    Event.lockRelease] }
  else hExit p (-1) []

/-- Embeds `seek` (lines 205-211). -/
def seek (env : Env) (p : Proc) (fd : Int) (position : Nat) : HRes Unit :=
  match process_get_file env p fd with
  | none => { out := Outcome.ok (), proc := p, msg := "", trace := [Event.getFile fd] }
  | some file =>
    { out := Outcome.ok (), proc := p, msg := ""
      trace := [Event.getFile fd, Event.fileSeek file position] }

/-- Embeds `tell` (lines 213-219).  The C source falls off a value-less
`return` in the invalid-fd branch of this non-void function; that
unspecified value is modelled by `tell_undef`. -/
def tell (env : Env) (p : Proc) (fd : Int) : HRes Int :=
  match process_get_file env p fd with
  | none => { out := Outcome.ok env.tell_undef, proc := p, msg := "", trace := [Event.getFile fd] }
  | some file =>
    { out := Outcome.ok (env.file_tell file), proc := p, msg := "", trace := [Event.getFile fd] }

/-- Embeds `wait` (lines 220-223): delegate to `process_wait`. -/
def wait (env : Env) (p : Proc) (pid : Int) : HRes Int :=
  { out := Outcome.ok (env.process_wait pid), proc := p, msg := "", trace := [] }

/-- Embeds `close` (lines 225-232): a guarded no-op for `fd <= 1 ||
next_fd <= fd`; otherwise `file_close(process_get_file(fd))` followed by
clearing the slot. -/
def close (env : Env) (p : Proc) (fd : Int) : HRes Unit :=
  if fd ≤ 1 ∨ p.next_fd ≤ fd then
    { out := Outcome.ok (), proc := p, msg := "", trace := [] }
  else
    { out := Outcome.ok ()
      proc := { p with fdt := fun k => if k = fd.toNat then none else p.fdt k }
      msg := ""
      trace := [Event.getFile fd, Event.fileClose (process_get_file env p fd)] }

/-- Embeds `fork` (lines 234-240): delegate to `process_fork` with the
saved parent frame. -/
def fork (env : Env) (p : Proc) (thread_name : Addr) : HRes Int :=
  { out := Outcome.ok (env.process_fork thread_name p.parent_if), proc := p, msg := ""
    trace := [] }

/-- Syscall numbers, following include/lib/syscall-nr.h (outside src/):
consecutive from SYS_HALT = 0 through SYS_CLOSE = 13, matching the order of
the cases in `syscall_handler`. -/
def SYS_HALT : Int := 0

def SYS_EXIT : Int := 1

def SYS_FORK : Int := 2

def SYS_EXEC : Int := 3

def SYS_WAIT : Int := 4

def SYS_CREATE : Int := 5

def SYS_REMOVE : Int := 6

def SYS_OPEN : Int := 7

def SYS_FILESIZE : Int := 8

def SYS_READ : Int := 9

def SYS_WRITE : Int := 10

def SYS_SEEK : Int := 11

def SYS_TELL : Int := 12

def SYS_CLOSE : Int := 13

/-- The fourteen syscall numbers that have a matching `case` in the
dispatcher's switch. -/
def handledNumbers : List Int :=
  [SYS_HALT, SYS_EXIT, SYS_FORK, SYS_EXEC, SYS_WAIT, SYS_CREATE, SYS_REMOVE,
   SYS_OPEN, SYS_FILESIZE, SYS_READ, SYS_WRITE, SYS_SEEK, SYS_TELL, SYS_CLOSE]

/-- Result of one dispatch: handler outcome together with the frame as it
stands when control goes back to the entry stub (or when the process
terminated). -/
structure DispatchRes where
  out : Outcome Unit
  proc : Proc
  msg : String
  trace : List Event
  frame : Frame

/-- Forget a handler's return value, keeping how it relinquished control. -/
def Outcome.toUnit {α : Type} : Outcome α → Outcome Unit
  | Outcome.ok _ => Outcome.ok ()
  | Outcome.exited s => Outcome.exited s
  | Outcome.halted => Outcome.halted
  | Outcome.noreturn => Outcome.noreturn

/-- Dispatch glue for an int-returning handler: `f->R.rax = handler(...)`,
executed only if the handler actually returns. -/
def liftInt (f : Frame) (r : HRes Int) : DispatchRes :=
  { out := r.out.toUnit, proc := r.proc, msg := r.msg, trace := r.trace
    frame := match r.out with
      | Outcome.ok v => { f with rax := intToRax v }
      | _ => f }

/-- Dispatch glue for a bool-returning handler. -/
def liftBool (f : Frame) (r : HRes Bool) : DispatchRes :=
  { out := r.out.toUnit, proc := r.proc, msg := r.msg, trace := r.trace
    frame := match r.out with
      | Outcome.ok v => { f with rax := if v then 1 else 0 }
      | _ => f }

/-- Dispatch glue for a void handler: the frame is left untouched. -/
def liftVoid (f : Frame) (r : HRes Unit) : DispatchRes :=
  { out := r.out, proc := r.proc, msg := r.msg, trace := r.trace, frame := f }

/-- Embeds `syscall_handler` (lines 242-291): read the syscall number from
`rax`, switch on it, forward the argument registers positionally, and store
an int/bool handler's result back into `rax`; a number with no case falls
through the switch and nothing happens. -/
def syscall_handler (env : Env) (p : Proc) (f : Frame) : DispatchRes :=
  let n : Int := toInt32 f.rax
  if n = SYS_HALT then liftVoid f (halt p)
  else if n = SYS_EXIT then liftVoid f (exit p (toInt32 f.rdi))
  else if n = SYS_FORK then liftInt f (fork env { p with parent_if := f } f.rdi)
  else if n = SYS_EXEC then liftInt f (exec env p f.rdi)
  else if n = SYS_WAIT then liftInt f (wait env p (toInt32 f.rdi))
  else if n = SYS_CREATE then liftBool f (create env p f.rdi (toUInt32nat f.rsi))
  else if n = SYS_REMOVE then liftBool f (remove env p f.rdi)
  else if n = SYS_OPEN then liftInt f (open' env p f.rdi)
  else if n = SYS_FILESIZE then liftInt f (filesize env p (toInt32 f.rdi))
  else if n = SYS_READ then liftInt f (read env p (toInt32 f.rdi) f.rsi (toUInt32nat f.rdx))
  else if n = SYS_WRITE then liftInt f (write env p (toInt32 f.rdi) f.rsi (toUInt32nat f.rdx))
  else if n = SYS_SEEK then liftVoid f (seek env p (toInt32 f.rdi) (toUInt32nat f.rsi))
  else if n = SYS_TELL then liftInt f (tell env p (toInt32 f.rdi))
  else if n = SYS_CLOSE then liftVoid f (close env p (toInt32 f.rdi))
  else { out := Outcome.ok (), proc := p, msg := "", trace := [], frame := f }

/-- Is the event one of the two filesystem data-transfer calls
(`file_read` / `file_write`) the filesystem lock is meant to guard. -/
def Event.isFileTransfer : Event → Bool
  | Event.fileRead _ _ => true
  | Event.fileWrite _ _ => true
  | _ => false

/-- The lock is used exactly as a guard around single filesystem transfer
calls: every acquire is immediately followed by one `file_read`/`file_write`
event and then the matching release, and no other lock event occurs. -/
def lockOnlyAroundTransfer : List Event → Bool
  | [] => true
  | Event.lockAcquire :: e :: Event.lockRelease :: rest =>
    Event.isFileTransfer e && lockOnlyAroundTransfer rest
  | Event.lockAcquire :: _ => false
  | Event.lockRelease :: _ => false
  | _ :: rest => lockOnlyAroundTransfer rest

/-- Lock-depth bookkeeping over a trace: never release a free lock, and end
with the lock free. -/
def lockEndsFree (d : Nat) : List Event → Bool
  | [] => d == 0
  | Event.lockAcquire :: rest => lockEndsFree (d + 1) rest
  | Event.lockRelease :: rest => decide (0 < d) && lockEndsFree (d - 1) rest
  | _ :: rest => lockEndsFree d rest

/-- The trace acquires and releases the lock in a balanced way and holds it
at no return point. -/
def lockBalanced (tr : List Event) : Bool := lockEndsFree 0 tr

/-- A concrete frame used by the closed witness theorems. -/
def testFrame : Frame :=
  { rax := 0, rdi := 0, rsi := 0, rdx := 0, r10 := 0, r8 := 0, r9 := 0, rbx := 0,
    rsp := 0, rip := 0 }

/-- A concrete process used by the closed witness theorems: pages below 1000
are mapped, descriptor 5 holds handle 7, allocation cursor at 6. -/
def testProc : Proc :=
  { name := "proc"
    exit_status := 0
    pml4 := fun a => if a < 1000 then some a else none
    fdt := fun k => if k = 5 then some 7 else none
    next_fd := 6
    parent_if := testFrame }

/-- `testProc` with every descriptor slot occupied: a full table. -/
def testProcFull : Proc :=
  { testProc with fdt := fun _ => some 1 }

/-- A concrete environment used by the closed witness theorems: addresses
below 1000 are user addresses, table capacity 64, path 300 is a missing
file and every other path opens as handle 9, transfers move `size` bytes,
the page allocation succeeds and `process_exec` fails. -/
def testEnv : Env :=
  { is_user_vaddr := fun a => decide (a < 1000)
    fdt_count_limit := 64
    filesys_create := fun _ _ => true
    filesys_remove := fun _ => true
    filesys_open := fun a => if a = 300 then none else some 9
    file_length := fun _ => 10
    file_read := fun _ _ s => (s : Int)
    file_write := fun _ _ s => (s : Int)
    file_tell := fun _ => 0
    palloc_ok := true
    process_exec_fails := true
    process_fork := fun _ _ => 3
    process_wait := fun _ => 0
    tell_undef := 0 }

/-- `testEnv` with a succeeding `process_exec` collaborator. -/
def testEnvExecOk : Env :=
  { testEnv with process_exec_fails := false }

/-- Helper: a run of console-input events does not change the lock depth. -/
theorem lockEndsFree_replicate_inputGetc (n d : Nat) (l : List Event) :
    lockEndsFree d (List.replicate n Event.inputGetc ++ l) = lockEndsFree d l := by
  induction n generalizing d with
  | zero => rfl
  | succ k ih => simpa [List.replicate_succ, lockEndsFree] using ih d

/-- Helper: a slot index returned by the free-slot scan is at or after the
start index. -/
theorem findFreeSlot_le (fdt : Nat → Option Handle) :
    ∀ fuel i j, findFreeSlot fdt fuel i = some j → i ≤ j := by
  intro fuel
  induction fuel with
  | zero =>
    intro i j h
    simp [findFreeSlot] at h
  | succ k ih =>
    intro i j h
    unfold findFreeSlot at h
    split at h
    · injection h with h'
      omega
    · exact le_trans (Nat.le_succ i) (ih (i + 1) j h)

/-- C9: exit(status) always succeeds: it records `status` in the calling
process's own `exit_status` field, emits the termination message naming the
process and the status, and then terminates the calling process. -/
theorem exit_records_status_and_terminates (p : Proc) (status : Int) :
    (exit p status).proc.exit_status = status ∧
    (exit p status).proc = { p with exit_status := status } ∧
    (exit p status).msg = p.name ++ ": exit(" ++ toString status ++ ")\n" ∧
    (exit p status).out = Outcome.exited status :=
  ⟨rfl, rfl, rfl, rfl⟩

/-- C4: the descriptor lookup returns none exactly when fd is below 2, at or
above the table capacity, or the slot at fd is empty; every fd below 2
yields none; and a successful lookup forces fd to be in range, so the table
is never indexed with an out-of-range fd. -/
theorem process_get_file_spec (env : Env) (p : Proc) (fd : Int) :
    (process_get_file env p fd = none ↔
      fd < 2 ∨ env.fdt_count_limit ≤ fd ∨ p.fdt fd.toNat = none) ∧
    (fd < 2 → process_get_file env p fd = none) ∧
    (∀ h, process_get_file env p fd = some h →
      2 ≤ fd ∧ fd < env.fdt_count_limit ∧ p.fdt fd.toNat = some h) := by
  by_cases hr : fd < 2 ∨ env.fdt_count_limit ≤ fd
  · refine ⟨?_, ?_, ?_⟩
    · simp only [process_get_file, if_pos hr]
      tauto
    · intro _
      simp [process_get_file, hr]
    · intro h hsome
      simp [process_get_file, hr] at hsome
  · refine ⟨?_, ?_, ?_⟩
    · simp only [process_get_file, if_neg hr]
      constructor
      · intro he
        exact Or.inr (Or.inr he)
      · intro he
        rcases he with he | he | he
        · exact absurd (Or.inl he) hr
        · exact absurd (Or.inr he) hr
        · exact he
    · intro hlt
      exact absurd (Or.inl hlt) hr
    · intro h hsome
      simp only [process_get_file, if_neg hr] at hsome
      push_neg at hr
      exact ⟨by omega, by omega, hsome⟩

/-- C4 witness: fd 1 is rejected, and the successful lookup of fd 5 implies
fd 5 was in range with handle 7 in the slot. -/
theorem process_get_file_witness :
    process_get_file testEnv testProc 1 = none ∧
    (2 ≤ (5 : Int) ∧ (5 : Int) < testEnv.fdt_count_limit ∧
      testProc.fdt (5 : Int).toNat = some 7) :=
  ⟨(process_get_file_spec testEnv testProc 1).2.1 (by decide),
   (process_get_file_spec testEnv testProc 5).2.2 7 (by decide)⟩

/-- C5 counterexample: at size 2^31 the console path of write stores the
unsigned size into the int return value, which wraps to -2^31, so write(1,
buffer, size) does not return size there. -/
theorem write_wrap_counterexample :
    (write testEnv testProc 1 100 2147483648).out = Outcome.ok (-2147483648) ∧
    (write testEnv testProc 1 100 2147483648).out ≠
      Outcome.ok ((2147483648 : Nat) : Int) := by
  constructor
  · decide
  · decide

/-- C5 amended: with a valid buffer, write delivers exactly size bytes to
the console when fd is 1 and returns size converted to a 32-bit signed int
(equal to size whenever size is below 2^31, wrapped otherwise); returns -1
when fd is below 2 and not 1, or when fd maps to no open file; and
otherwise returns the number of bytes the filesystem collaborator wrote. -/
theorem write_spec (env : Env) (p : Proc) (fd : Int) (buf : Addr) (size : Nat)
    (hv : check_address env p buf = true) :
    ((write env p 1 buf size).out = Outcome.ok (toInt32 size) ∧
      (write env p 1 buf size).trace = [Event.putbuf size]) ∧
    (size < 2147483648 → (write env p 1 buf size).out = Outcome.ok (size : Int)) ∧
    (fd < 2 → fd ≠ 1 → (write env p fd buf size).out = Outcome.ok (-1)) ∧
    (2 ≤ fd → process_get_file env p fd = none →
      (write env p fd buf size).out = Outcome.ok (-1)) ∧
    (∀ h, process_get_file env p fd = some h →
      (write env p fd buf size).out = Outcome.ok (env.file_write h buf size)) := by
  refine ⟨?_, ?_, ?_, ?_, ?_⟩
  · constructor
    · simp [write, hv]
    · simp [write, hv]
  · intro hs
    have hm : size % 4294967296 = size := Nat.mod_eq_of_lt (by omega)
    simp [write, hv, toInt32, hm, hs]
  · intro hlt hne
    simp [write, hv, hne, hlt]
  · intro hge hnone
    have hne : fd ≠ 1 := by omega
    have hnl : ¬ fd < 2 := by omega
    simp [write, hv, hne, hnl, hnone]
  · intro h hsome
    have hr : ¬ (fd < 2 ∨ env.fdt_count_limit ≤ fd) := by
      intro hc
      simp [process_get_file, hc] at hsome
    have hne : fd ≠ 1 := by omega
    have hnl : ¬ fd < 2 := by omega
    simp [write, hv, hne, hnl, hsome]

/-- C5 witness: a console write of 4 bytes (4 below 2^31) returns 4 and
emits the 4-byte console event, fd 0 and the unopened fd 3 return -1, and
the open fd 5 returns what the collaborator wrote. -/
theorem write_spec_witness :
    check_address testEnv testProc 100 = true ∧
    (4 : Nat) < 2147483648 ∧
    (write testEnv testProc 1 100 4).out = Outcome.ok 4 ∧
    (write testEnv testProc 1 100 4).trace = [Event.putbuf 4] ∧
    (write testEnv testProc 0 100 4).out = Outcome.ok (-1) ∧
    (write testEnv testProc 3 100 4).out = Outcome.ok (-1) ∧
    (write testEnv testProc 5 100 4).out = Outcome.ok 4 :=
  ⟨by decide,
   by decide,
   (write_spec testEnv testProc 1 100 4 (by decide)).2.1 (by decide),
   ((write_spec testEnv testProc 1 100 4 (by decide)).1).2,
   (write_spec testEnv testProc 0 100 4 (by decide)).2.2.1 (by decide) (by decide),
   (write_spec testEnv testProc 3 100 4 (by decide)).2.2.2.1 (by decide) (by decide),
   (write_spec testEnv testProc 5 100 4 (by decide)).2.2.2.2 7 (by decide)⟩

/-- C6: close is a no-op on the process state when fd is at most 1 or at or
beyond the allocated range (so descriptors 0 and 1 are never closed); for a
valid open fd it closes the underlying handle and clears the slot, so a
subsequent lookup of the same fd returns none. -/
theorem close_spec (env : Env) (p : Proc) (fd : Int) :
    (fd ≤ 1 ∨ p.next_fd ≤ fd →
      (close env p fd).proc = p ∧ (close env p fd).trace = []) ∧
    (∀ h, 1 < fd → fd < p.next_fd → process_get_file env p fd = some h →
      Event.fileClose (some h) ∈ (close env p fd).trace ∧
      process_get_file env (close env p fd).proc fd = none) := by
  constructor
  · intro hg
    constructor
    · simp [close, hg]
    · simp [close, hg]
  · intro h hlo hhi hsome
    have hng : ¬ (fd ≤ 1 ∨ p.next_fd ≤ fd) := by omega
    constructor
    · simp [close, hng, hsome]
    · have hr : ¬ (fd < 2 ∨ env.fdt_count_limit ≤ fd) := by
        intro hc
        simp [process_get_file, hc] at hsome
      simp [close, hng, process_get_file, hr]

/-- C6 witness: closing fd 1 and the unallocated fd 60 leaves the process
untouched; closing the open fd 5 records the handle close and makes the
next lookup of fd 5 return none. -/
theorem close_spec_witness :
    (close testEnv testProc 1).proc = testProc ∧
    (close testEnv testProc 60).proc = testProc ∧
    (Event.fileClose (some 7) ∈ (close testEnv testProc 5).trace ∧
      process_get_file testEnv (close testEnv testProc 5).proc 5 = none) :=
  ⟨((close_spec testEnv testProc 1).1 (by decide)).1,
   ((close_spec testEnv testProc 60).1 (by decide)).1,
   (close_spec testEnv testProc 5).2 7 (by decide) (by decide) (by decide)⟩

/-- C1: the address validator terminates the calling process with exit
status -1 exactly when the pointer is null, outside the user address range,
or unmapped in the caller's page table; a failed validation in any of the
pointer-taking handlers (create, remove, open, exec, read, write) yields
termination with status -1 and no handler event at all; a valid pointer
leaves validation without any effect on the process. -/
theorem check_address_spec (env : Env) (p : Proc) (addr : Addr) (sz : Nat) (fd : Int) :
    (check_address env p addr = false ↔
      addr = 0 ∨ env.is_user_vaddr addr = false ∨ p.pml4 addr = none) ∧
    (check_address env p addr = false →
      (create env p addr sz).out = Outcome.exited (-1) ∧ (create env p addr sz).trace = [] ∧
      (create env p addr sz).proc.exit_status = -1 ∧
      (remove env p addr).out = Outcome.exited (-1) ∧ (remove env p addr).trace = [] ∧
      (open' env p addr).out = Outcome.exited (-1) ∧ (open' env p addr).trace = [] ∧
      (exec env p addr).out = Outcome.exited (-1) ∧ (exec env p addr).trace = [] ∧
      (read env p fd addr sz).out = Outcome.exited (-1) ∧ (read env p fd addr sz).trace = [] ∧
      (write env p fd addr sz).out = Outcome.exited (-1) ∧
      (write env p fd addr sz).trace = []) ∧
    (check_address env p addr = true →
      (create env p addr sz).out = Outcome.ok (env.filesys_create addr sz) ∧
      (create env p addr sz).proc = p ∧ (create env p addr sz).msg = "") := by
  refine ⟨?_, ?_, ?_⟩
  · simp only [check_address, Bool.not_eq_eq_eq_not, Bool.not_false, Bool.or_eq_true,
      Bool.not_eq_true', beq_iff_eq, Option.isNone_iff_eq_none]
    tauto
  · intro hbad
    simp [create, remove, open', exec, read, write, hExit, hbad]
  · intro hok
    simp [create, hok]

/-- C1 witness: the null pointer terminates create with status -1 and no
filesystem call, while the mapped user pointer 100 reaches the filesystem
collaborator and leaves the process untouched. -/
theorem check_address_spec_witness :
    (create testEnv testProc 0 4).out = Outcome.exited (-1) ∧
    (create testEnv testProc 0 4).trace = [] ∧
    (create testEnv testProc 100 4).out = Outcome.ok true ∧
    (create testEnv testProc 100 4).proc = testProc :=
  ⟨((check_address_spec testEnv testProc 0 4 0).2.1 (by decide)).1,
   ((check_address_spec testEnv testProc 0 4 0).2.1 (by decide)).2.1,
   ((check_address_spec testEnv testProc 100 4 0).2.2 (by decide)).1,
   ((check_address_spec testEnv testProc 100 4 0).2.2 (by decide)).2.1⟩

/-- C3: with a valid path pointer, open returns -1 when the file is not
found or when the descriptor table has no free slot; in the table-full case
the freshly opened handle is released before returning; otherwise open
returns the new descriptor, which is at least 2. -/
theorem open_spec (env : Env) (p : Proc) (path : Addr)
    (hv : check_address env p path = true) :
    (env.filesys_open path = none → (open' env p path).out = Outcome.ok (-1)) ∧
    (∀ h, env.filesys_open path = some h →
      ((process_add_file env p h).1 = -1 →
        (open' env p path).out = Outcome.ok (-1) ∧
        Event.freeHandle h ∈ (open' env p path).trace) ∧
      ((process_add_file env p h).1 ≠ -1 →
        (open' env p path).out = Outcome.ok (process_add_file env p h).1 ∧
        2 ≤ (process_add_file env p h).1)) := by
  constructor
  · intro hn
    simp [open', hv, hn]
  · intro h hs
    constructor
    · intro hfail
      constructor
      · simp [open', hv, hs, hfail]
      · simp [open', hv, hs, hfail]
    · intro hne
      constructor
      · simp [open', hv, hs, hne]
      · unfold process_add_file at hne ⊢
        rcases hf : findFreeSlot p.fdt (env.fdt_count_limit.toNat - 2) 2 with _ | j
        · rw [hf] at hne
          simp at hne
        · have hj := findFreeSlot_le p.fdt _ _ _ hf
          show (2 : Int) ≤ (j : Int)
          exact_mod_cast hj

/-- C3 witness: the missing path 300 yields -1; path 100 opens as handle 9
and gets descriptor 2; with a full table the open returns -1 and the fresh
handle 9 is released. -/
theorem open_spec_witness :
    (open' testEnv testProc 300).out = Outcome.ok (-1) ∧
    (open' testEnv testProc 100).out = Outcome.ok 2 ∧
    ((open' testEnv testProcFull 100).out = Outcome.ok (-1) ∧
      Event.freeHandle 9 ∈ (open' testEnv testProcFull 100).trace) :=
  ⟨(open_spec testEnv testProc 300 (by decide)).1 (by decide),
   (((open_spec testEnv testProc 100 (by decide)).2 9 (by decide)).2 (by decide)).1,
   ((open_spec testEnv testProcFull 100 (by decide)).2 9 (by decide)).1 (by decide)⟩

/-- C7: with a valid pointer, exec allocates a kernel page and copies the
command line into it before invoking the image-replacing collaborator; a
failed page allocation or a collaborator failure terminates the caller with
exit status -1; exec never returns normally. -/
theorem exec_spec (env : Env) (p : Proc) (cmd : Addr)
    (hv : check_address env p cmd = true) :
    (env.palloc_ok = false →
      (exec env p cmd).out = Outcome.exited (-1) ∧
      (exec env p cmd).proc.exit_status = -1) ∧
    (env.palloc_ok = true → env.process_exec_fails = true →
      (exec env p cmd).out = Outcome.exited (-1) ∧
      (exec env p cmd).trace = [Event.pallocPage, Event.strlcpyCopy, Event.processExec]) ∧
    (env.palloc_ok = true → env.process_exec_fails = false →
      (exec env p cmd).out = Outcome.noreturn ∧
      (exec env p cmd).trace = [Event.pallocPage, Event.strlcpyCopy, Event.processExec]) ∧
    (∀ v, (exec env p cmd).out ≠ Outcome.ok v) := by
  refine ⟨?_, ?_, ?_, ?_⟩
  · intro ha
    simp [exec, hv, ha, hExit]
  · intro ha hf
    simp [exec, hv, ha, hf, hExit]
  · intro ha hf
    simp [exec, hv, ha, hf]
  · intro v
    unfold exec
    rcases ha : env.palloc_ok with _ | _
    · simp [hv, ha, hExit]
    · rcases hf : env.process_exec_fails with _ | _
      · simp [hv, ha, hf]
      · simp [hv, ha, hf, hExit]

/-- C7 witness: under a failing collaborator exec terminates with -1 after
copying into the fresh page, and under a succeeding collaborator it never
returns. -/
theorem exec_spec_witness :
    check_address testEnv testProc 100 = true ∧
    ((exec testEnv testProc 100).out = Outcome.exited (-1) ∧
      (exec testEnv testProc 100).trace =
        [Event.pallocPage, Event.strlcpyCopy, Event.processExec]) ∧
    (exec testEnvExecOk testProc 100).out = Outcome.noreturn :=
  ⟨by decide,
   (exec_spec testEnv testProc 100 (by decide)).2.1 (by decide) (by decide),
   ((exec_spec testEnvExecOk testProc 100 (by decide)).2.2.1 (by decide) (by decide)).1⟩

/-- C8: a syscall number with no matching case leaves the dispatcher a
silent no-op: no handler runs, no event or output is produced, the process
is untouched and the whole frame, return-value register included, is
unchanged; and the four void syscalls (halt, exit, seek, close) leave the
return-value register untouched. -/
theorem syscall_handler_spec (env : Env) (p : Proc) (f : Frame) :
    (toInt32 f.rax ∉ handledNumbers →
      (syscall_handler env p f).frame = f ∧
      (syscall_handler env p f).proc = p ∧
      (syscall_handler env p f).trace = [] ∧
      (syscall_handler env p f).msg = "" ∧
      (syscall_handler env p f).out = Outcome.ok ()) ∧
    (toInt32 f.rax = SYS_HALT ∨ toInt32 f.rax = SYS_EXIT ∨
        toInt32 f.rax = SYS_SEEK ∨ toInt32 f.rax = SYS_CLOSE →
      (syscall_handler env p f).frame.rax = f.rax) := by
  constructor
  · intro hn
    simp only [handledNumbers, SYS_HALT, SYS_EXIT, SYS_FORK, SYS_EXEC, SYS_WAIT, SYS_CREATE,
      SYS_REMOVE, SYS_OPEN, SYS_FILESIZE, SYS_READ, SYS_WRITE, SYS_SEEK, SYS_TELL, SYS_CLOSE,
      List.mem_cons, List.not_mem_nil, or_false, not_or] at hn
    obtain ⟨h0, h1, h2, h3, h4, h5, h6, h7, h8, h9, h10, h11, h12, h13⟩ := hn
    refine ⟨?_, ?_, ?_, ?_, ?_⟩ <;>
      simp [syscall_handler, SYS_HALT, SYS_EXIT, SYS_FORK, SYS_EXEC, SYS_WAIT, SYS_CREATE,
        SYS_REMOVE, SYS_OPEN, SYS_FILESIZE, SYS_READ, SYS_WRITE, SYS_SEEK, SYS_TELL, SYS_CLOSE,
        h0, h1, h2, h3, h4, h5, h6, h7, h8, h9, h10, h11, h12, h13]
  · intro hvoid
    rcases hvoid with h | h | h | h <;>
      simp [syscall_handler, SYS_HALT, SYS_EXIT, SYS_FORK, SYS_EXEC, SYS_WAIT, SYS_CREATE,
        SYS_REMOVE, SYS_OPEN, SYS_FILESIZE, SYS_READ, SYS_WRITE, SYS_SEEK, SYS_TELL, SYS_CLOSE,
        h, liftVoid]

/-- C8 witness: number 99 has no handler and leaves the frame unchanged;
number 11 (seek) leaves the return-value register untouched. -/
theorem syscall_handler_witness :
    (syscall_handler testEnv testProc { testFrame with rax := 99 }).frame =
      { testFrame with rax := 99 } ∧
    (syscall_handler testEnv testProc { testFrame with rax := 11 }).frame.rax = 11 :=
  ⟨((syscall_handler_spec testEnv testProc { testFrame with rax := 99 }).1 (by decide)).1,
   (syscall_handler_spec testEnv testProc { testFrame with rax := 11 }).2
     (Or.inr (Or.inr (Or.inl (by decide))))⟩

/-- C2 counterexample: on the open descriptor 5 the read handler holds the
filesystem lock around the descriptor lookup as well, so the lock is not
acquired only around the single file_read call. -/
theorem lock_scope_counterexample :
    lockOnlyAroundTransfer (read testEnv testProc 5 100 4).trace = false := by
  decide

/-- C2 amended: in write the lock is acquired only around the single
file_write call; in read the lock is instead acquired at the start of the
handler, before the console path and before fd validation; and on every
return path of read and write the lock has been released before the handler
returns. -/
theorem lock_discipline (env : Env) (p : Proc) (fd : Int) (buf : Addr) (size : Nat) :
    lockOnlyAroundTransfer (write env p fd buf size).trace = true ∧
    lockBalanced (write env p fd buf size).trace = true ∧
    lockBalanced (read env p fd buf size).trace = true ∧
    (check_address env p buf = true →
      (read env p fd buf size).trace.head? = some Event.lockAcquire) := by
  by_cases hv : check_address env p buf = true
  · refine ⟨?_, ?_, ?_, fun _ => ?_⟩
    · unfold write
      rw [if_pos hv]
      by_cases h1 : fd = 1
      · simp [h1, lockOnlyAroundTransfer]
      · by_cases h2 : fd < 2
        · simp [h1, h2, lockOnlyAroundTransfer]
        · rcases hg : process_get_file env p fd with _ | file <;>
            simp [h1, h2, hg, lockOnlyAroundTransfer, Event.isFileTransfer]
    · unfold write
      rw [if_pos hv]
      by_cases h1 : fd = 1
      · simp [h1, lockBalanced, lockEndsFree]
      · by_cases h2 : fd < 2
        · simp [h1, h2, lockBalanced, lockEndsFree]
        · rcases hg : process_get_file env p fd with _ | file <;>
            simp [h1, h2, hg, lockBalanced, lockEndsFree]
    · unfold read
      rw [if_pos hv]
      by_cases h0 : fd = 0
      · simp [h0, lockBalanced, lockEndsFree, lockEndsFree_replicate_inputGetc]
      · by_cases h2 : fd < 2
        · simp [h0, h2, lockBalanced, lockEndsFree]
        · rcases hg : process_get_file env p fd with _ | file <;>
            simp [h0, h2, hg, lockBalanced, lockEndsFree]
    · unfold read
      rw [if_pos hv]
      by_cases h0 : fd = 0
      · simp [h0]
      · by_cases h2 : fd < 2
        · simp [h0, h2]
        · rcases hg : process_get_file env p fd with _ | file <;> simp [h0, h2, hg]
  · have hv' : check_address env p buf = false := by
      simpa using hv
    refine ⟨?_, ?_, ?_, fun hc => absurd hc hv⟩
    · simp [write, hv', hExit, lockOnlyAroundTransfer]
    · simp [write, hv', hExit, lockBalanced, lockEndsFree]
    · simp [read, hv', hExit, lockBalanced, lockEndsFree]

/-- C2 amended witness: the lock use of write on the open descriptor 5 is a
single guarded file_write, both handlers end with the lock free, and read
grabs the lock first thing after validation. -/
theorem lock_discipline_witness :
    check_address testEnv testProc 100 = true ∧
    lockOnlyAroundTransfer (write testEnv testProc 5 100 4).trace = true ∧
    lockBalanced (write testEnv testProc 5 100 4).trace = true ∧
    lockBalanced (read testEnv testProc 0 100 4).trace = true ∧
    (read testEnv testProc 5 100 4).trace.head? = some Event.lockAcquire :=
  ⟨by decide,
   (lock_discipline testEnv testProc 5 100 4).1,
   (lock_discipline testEnv testProc 5 100 4).2.1,
   (lock_discipline testEnv testProc 0 100 4).2.2.1,
   (lock_discipline testEnv testProc 5 100 4).2.2.2 (by decide)⟩

/-- C10: with a valid buffer, the console fast path of write (fd 1)
performs the console output without ever acquiring the filesystem lock,
unlike the console fast path of read (fd 0), which does acquire it. -/
theorem console_lock_asymmetry (env : Env) (p : Proc) (buf : Addr) (size : Nat)
    (hv : check_address env p buf = true) :
    Event.lockAcquire ∉ (write env p 1 buf size).trace ∧
    Event.lockAcquire ∈ (read env p 0 buf size).trace := by
  constructor
  · simp [write, hv]
  · simp [read, hv]

/-- C10 witness: writing 4 bytes to the console touches no lock while
reading 4 bytes from the console acquires it. -/
theorem console_lock_asymmetry_witness :
    check_address testEnv testProc 100 = true ∧
    (Event.lockAcquire ∉ (write testEnv testProc 1 100 4).trace ∧
      Event.lockAcquire ∈ (read testEnv testProc 0 100 4).trace) :=
  ⟨by decide, console_lock_asymmetry testEnv testProc 100 4 (by decide)⟩

end PintosSyscall
